import Mathlib

/-!
Shallow embedding of the learn-wgpu Windows application skeleton
(`src/app.rs`, `src/window.rs`, `src/gfx.rs`).

Machine integers are modelled as follows: `WPARAM` (usize) and `LPARAM`
(isize) are carried as `Nat` bit patterns, since the handler only ever
masks and shifts them; `i32` window dimensions are `Int`; `u32` surface
dimensions are `Nat`, with `as u32` casts written as an explicit
`% 2^32`.  Fallible code (`expect`, `unwrap`) is modelled with `Except`.
External effects that feed data back into the handler (the
`GetClientRect` result queried on `WM_SIZE`, and the `wgpu` render result
inspected on `WM_PAINT`) are passed in as part of the message input
record, since they are inputs chosen by the environment.

The modules `keyboard.rs` and `mouse.rs` are not among the sources; the
`Keyboard` and `Mouse` state holders are modelled from the spec (§3,
§4.3), as noted on each of their definitions.
-/

namespace LW

/-! Win32 message codes, as imported by `src/window.rs` and `src/app.rs`
from the `windows` crate. -/

def WM_DESTROY : Nat := 0x0002
def WM_SIZE : Nat := 0x0005
def WM_ACTIVATE : Nat := 0x0006
def WM_KILLFOCUS : Nat := 0x0008
def WM_PAINT : Nat := 0x000F
def WM_QUIT : Nat := 0x0012
def WM_KEYDOWN : Nat := 0x0100
def WM_KEYUP : Nat := 0x0101
def WM_CHAR : Nat := 0x0102
def WM_SYSKEYDOWN : Nat := 0x0104
def WM_SYSKEYUP : Nat := 0x0105
def WM_MOUSEMOVE : Nat := 0x0200
def WM_LBUTTONDOWN : Nat := 0x0201
def WM_LBUTTONUP : Nat := 0x0202
def WM_RBUTTONDOWN : Nat := 0x0204
def WM_RBUTTONUP : Nat := 0x0205
def WM_MOUSEHWHEEL : Nat := 0x020E

/-- Modelled from the spec: `src/keyboard.rs` is not among the sources.
Spec §3: "a set of currently-pressed key codes, a bounded queue of
character-input events, an auto-repeat-enabled flag". -/
structure Keyboard where
  keystates : List Nat
  charbuffer : List Nat
  autorepeatEnabled : Bool
deriving DecidableEq

/-- Modelled from the spec (§4.3): "mark-pressed(key)" adds the key to
the pressed set. -/
def Keyboard.on_key_pressed (kb : Keyboard) (k : Nat) : Keyboard :=
  { kb with keystates := kb.keystates.insert k }

/-- Modelled from the spec (§4.3): "mark-released(key)" removes the key
from the pressed set. -/
def Keyboard.on_key_released (kb : Keyboard) (k : Nat) : Keyboard :=
  { kb with keystates := kb.keystates.erase k }

/-- Modelled from the spec (§4.3): "enqueue-char(c)", FIFO order. -/
def Keyboard.on_char (kb : Keyboard) (c : Nat) : Keyboard :=
  { kb with charbuffer := kb.charbuffer ++ [c] }

/-- Modelled from the spec (§4.3 "clear-all()" and §8 "Focus-lost must
make the pressed-set empty and the character queue empty"). -/
def Keyboard.clear_state (kb : Keyboard) : Keyboard :=
  { kb with keystates := [], charbuffer := [] }

/-- Modelled from the spec (§4.3): "query-pressed(key) → boolean". -/
def Keyboard.key_is_pressed (kb : Keyboard) (k : Nat) : Bool :=
  kb.keystates.contains k

/-- Modelled from the spec (§4.3): "query/set auto-repeat flag". -/
def Keyboard.auto_repeat_is_enabled (kb : Keyboard) : Bool :=
  kb.autorepeatEnabled

/-- Modelled from the spec (§4.3): the typed mouse event variants
"Move\x7bx,y\x7d | LeftDown | LeftUp | RightDown | RightUp |
Wheel\x7bx,y,delta\x7d". -/
inductive MouseEvent where
  | move (x y : Int)
  | leftDown
  | leftUp
  | rightDown
  | rightUp
  | wheel (x y : Int) (delta : Nat)
deriving DecidableEq

/-- Modelled from the spec: `src/mouse.rs` is not among the sources.
Spec §3: "current in-window flag, left/right button pressed flags, a
bounded queue of positional/button/wheel events". -/
structure Mouse where
  x : Int
  y : Int
  leftPressed : Bool
  rightPressed : Bool
  inWindow : Bool
  buffer : List MouseEvent
deriving DecidableEq

/-- Modelled from the spec (§4.3): "record-move(x,y)" stores the new
position and enqueues a Move event. -/
def Mouse.on_mouse_move (ms : Mouse) (nx ny : Int) : Mouse :=
  { ms with x := nx, y := ny, buffer := ms.buffer ++ [MouseEvent.move nx ny] }

/-- Modelled from the spec (§4.3): "mark-entered". -/
def Mouse.on_mouse_enter (ms : Mouse) : Mouse :=
  { ms with inWindow := true }

/-- Modelled from the spec (§4.3): "mark-left". -/
def Mouse.on_mouse_leave (ms : Mouse) : Mouse :=
  { ms with inWindow := false }

/-- Modelled from the spec (§4.2): "Set/clear the corresponding pressed
flag and enqueue the event." -/
def Mouse.on_left_pressed (ms : Mouse) : Mouse :=
  { ms with leftPressed := true, buffer := ms.buffer ++ [MouseEvent.leftDown] }

/-- Modelled from the spec (§4.2): left button released. -/
def Mouse.on_left_released (ms : Mouse) : Mouse :=
  { ms with leftPressed := false, buffer := ms.buffer ++ [MouseEvent.leftUp] }

/-- Modelled from the spec (§4.2): right button pressed. -/
def Mouse.on_right_pressed (ms : Mouse) : Mouse :=
  { ms with rightPressed := true, buffer := ms.buffer ++ [MouseEvent.rightDown] }

/-- Modelled from the spec (§4.2): right button released. -/
def Mouse.on_right_released (ms : Mouse) : Mouse :=
  { ms with rightPressed := false, buffer := ms.buffer ++ [MouseEvent.rightUp] }

/-- Modelled from the spec (§4.3): "enqueue-wheel(x,y,delta)". -/
def Mouse.on_wheel_delta (ms : Mouse) (nx ny : Int) (delta : Nat) : Mouse :=
  { ms with buffer := ms.buffer ++ [MouseEvent.wheel nx ny delta] }

/-- Modelled from the spec (§4.3): "query pressed state". -/
def Mouse.left_is_pressed (ms : Mouse) : Bool := ms.leftPressed

/-- Modelled from the spec (§4.3): "query pressed state". -/
def Mouse.right_is_pressed (ms : Mouse) : Bool := ms.rightPressed

/-- Modelled from the spec (§4.3): "query in-window". -/
def Mouse.is_in_window (ms : Mouse) : Bool := ms.inWindow

/-! The Surface/Device Handle, from `src/gfx.rs`.  The `wgpu` device,
queue, surface and pipeline objects are opaque external resources; the
state the source mutates is the `SurfaceConfiguration` record. -/

/-- The dimension fields of `wgpu::SurfaceConfiguration` (`config` in
`src/gfx.rs`); `width` and `height` are `u32`. -/
structure SurfaceConfiguration where
  width : Nat
  height : Nat
deriving DecidableEq

/-- The `GFX` struct of `src/gfx.rs`, restricted to its mutable
configuration record (surface, device, queue and pipeline are opaque
external handles). -/
structure GFX where
  config : SurfaceConfiguration
deriving DecidableEq

/-- `GFX::resize` from `src/gfx.rs` lines 141-147: update the configured
dimensions and reconfigure the surface only when both are positive. -/
def GFX.resize (g : GFX) (new_width new_height : Nat) : GFX :=
  if new_width > 0 ∧ new_height > 0 then
    { g with config := { width := new_width, height := new_height } }
  else g

/-- Outcome of `GFX::render` (`Result<(), wgpu::SurfaceError>`): the
surface error variants of `wgpu` matched in `src/window.rs` WM_PAINT. -/
inductive RenderResult where
  | ok
  | lost
  | outOfMemory
  | outdated
  | timeout
deriving DecidableEq

/-- A panic (`expect` / `unwrap` failure) inside
`Window::user_message_handler`. -/
inductive Panic where
  | keycodeConversion
  | charConversion
  | gfxUnwrap
deriving DecidableEq

/-- External calls made by the handler that do not change `Window`
state, recorded as a trace. -/
inductive ExtCall where
  | renderCall
  | defWindowProc
deriving DecidableEq

/-- The `Window` struct of `src/window.rs`.  `window_handle` (HWND) is
an opaque native handle.  `captured` models the Win32 mouse-capture
state toggled by `SetCapture` / `ReleaseCapture`, and `quitPosted`
models `PostQuitMessage(0)` having been called. -/
structure Window where
  width : Int
  height : Int
  window_name : String
  window_handle : Nat
  visible : Bool
  kbd : Keyboard
  mouse : Mouse
  gfx : Option GFX
  captured : Bool
  quitPosted : Bool
deriving DecidableEq

/-- `Window::new(width, height, window_user_name)` from `src/window.rs`:
all state empty, not visible, no graphics handle yet. -/
def Window.new (width height : Int) (window_user_name : String) : Window :=
  { width := width
    height := height
    window_name := window_user_name
    window_handle := 0
    visible := false
    kbd := { keystates := [], charbuffer := [], autorepeatEnabled := false }
    mouse := { x := 0, y := 0, leftPressed := false, rightPressed := false,
               inWindow := false, buffer := [] }
    gfx := none
    captured := false
    quitPosted := false }

/-- One native message together with the environment data the handler
may query while processing it: the client rectangle reported by
`GetClientRect` (on WM_SIZE) and the outcome of `gfx.render()`
(on WM_PAINT).  `wparam` and `lparam` are machine-word bit patterns. -/
structure MsgInput where
  message : Nat
  wparam : Nat
  lparam : Nat
  rcLeft : Int
  rcTop : Int
  rcRight : Int
  rcBottom : Int
  renderResult : RenderResult
deriving DecidableEq

/-- `usize::try_into::<u8>()`: succeeds exactly when the value fits in
eight bits. -/
def u8_try_from (v : Nat) : Option Nat :=
  if v < 256 then some v else none

/-- Low 16 bits of the packed position parameter
(`lparam & 0xFFFF` in `src/window.rs`). -/
def mouseX (lp : Nat) : Nat := lp &&& 0xFFFF

/-- Next 16 bits of the packed position parameter
(`(lparam >> 16) & 0xFFFF` in `src/window.rs`). -/
def mouseY (lp : Nat) : Nat := (lp >>> 16) &&& 0xFFFF

/-- The `i32 as u32` / `isize as u32` cast: wrap modulo `2^32`. -/
def intAsU32 (v : Int) : Nat := (v % 4294967296).toNat

/-- `Window::user_message_handler` from `src/window.rs` lines 146-277:
one state transition per message code.  Returns the updated window and
the trace of external calls, or the panic that aborted the handler. -/
def Window.user_message_handler (w : Window) (m : MsgInput) :
    Except Panic (Window × List ExtCall) :=
  if m.message = WM_ACTIVATE then
    .ok ({ w with visible := true }, [])
  else if m.message = WM_KEYDOWN ∨ m.message = WM_SYSKEYDOWN then
    -- filter for autorepeat key messages
    if m.lparam &&& 0x40000000 == 0 || w.kbd.auto_repeat_is_enabled then
      match u8_try_from m.wparam with
      | some k => .ok ({ w with kbd := w.kbd.on_key_pressed k }, [])
      | none => .error Panic.keycodeConversion
    else
      .ok (w, [])
  else if m.message = WM_KEYUP ∨ m.message = WM_SYSKEYUP then
    match u8_try_from m.wparam with
    | some k => .ok ({ w with kbd := w.kbd.on_key_released k }, [])
    | none => .error Panic.keycodeConversion
  else if m.message = WM_CHAR then
    match u8_try_from m.wparam with
    | some c => .ok ({ w with kbd := w.kbd.on_char c }, [])
    | none => .error Panic.charConversion
  else if m.message = WM_KILLFOCUS then
    .ok ({ w with kbd := w.kbd.clear_state }, [])
  else if m.message = WM_MOUSEMOVE then
    -- x and y are the masked 16-bit fields of lparam, held in isize
    -- variables in the source; after the mask they are non-negative
    if 0 ≤ (mouseX m.lparam : Int) ∧ 0 ≤ (mouseY m.lparam : Int) ∧
        (mouseX m.lparam : Int) < w.width ∧ (mouseY m.lparam : Int) < w.height then
      -- mouse inside client area
      if ¬ w.mouse.is_in_window then
        .ok ({ w with
                mouse := (w.mouse.on_mouse_move (mouseX m.lparam) (mouseY m.lparam)).on_mouse_enter,
                captured := true }, [])
      else
        .ok ({ w with
                mouse := w.mouse.on_mouse_move (mouseX m.lparam) (mouseY m.lparam) }, [])
    else
      -- mouse outside client area: track only while dragging
      if w.mouse.left_is_pressed || w.mouse.right_is_pressed then
        .ok ({ w with
                mouse := w.mouse.on_mouse_move (mouseX m.lparam) (mouseY m.lparam) }, [])
      else
        .ok ({ w with mouse := w.mouse.on_mouse_leave, captured := false }, [])
  else if m.message = WM_LBUTTONDOWN then
    .ok ({ w with mouse := w.mouse.on_left_pressed }, [])
  else if m.message = WM_RBUTTONDOWN then
    .ok ({ w with mouse := w.mouse.on_right_pressed }, [])
  else if m.message = WM_LBUTTONUP then
    .ok ({ w with mouse := w.mouse.on_left_released }, [])
  else if m.message = WM_RBUTTONUP then
    .ok ({ w with mouse := w.mouse.on_right_released }, [])
  else if m.message = WM_MOUSEHWHEEL then
    .ok ({ w with
            mouse := w.mouse.on_wheel_delta (mouseX m.lparam) (mouseY m.lparam) m.wparam }, [])
  else if m.message = WM_SIZE then
    -- GetClientRect fills rc; the new dimensions are cast `as u32`
    match w.gfx with
    | some g =>
        .ok ({ w with
                gfx := some (g.resize (intAsU32 (m.rcRight - m.rcLeft))
                                      (intAsU32 (m.rcBottom - m.rcTop))) }, [])
    | none => .ok (w, [])
  else if m.message = WM_PAINT then
    -- `self.gfx.as_mut().unwrap()` panics when gfx is None
    match w.gfx with
    | none => .error Panic.gfxUnwrap
    | some g =>
        match m.renderResult with
        | RenderResult.ok => .ok (w, [ExtCall.renderCall])
        | RenderResult.lost =>
            -- reconfigure the surface if lost, at the stored width/height fields
            .ok ({ w with
                    gfx := some (g.resize (intAsU32 w.width) (intAsU32 w.height)) },
                 [ExtCall.renderCall])
        | RenderResult.outOfMemory =>
            .ok ({ w with quitPosted := true }, [ExtCall.renderCall])
        | RenderResult.outdated => .ok (w, [ExtCall.renderCall])
        | RenderResult.timeout => .ok (w, [ExtCall.renderCall])
  else if m.message = WM_DESTROY then
    .ok ({ w with quitPosted := true }, [])
  else
    .ok (w, [ExtCall.defWindowProc])

/-- Dispatch a sequence of messages through the handler, stopping at the
first panic. -/
def processSeq (w : Window) : List MsgInput → Except Panic Window
  | [] => .ok w
  | m :: rest =>
    match w.user_message_handler m with
    | .error p => .error p
    | .ok (w', _) => processSeq w' rest

/-! The application driver, `App::run` from `src/app.rs` lines 29-51.
The native message stream is modelled as the finite list of messages the
system will deliver; `PeekMessageW` and `GetMessageW` both take the next
message off this list (`PeekMessageW` reports failure on the empty
list; `GetMessageW` blocks, which on a finite stream means the run never
returns: outcome `outOfInput`). -/

/-- One observable step of the driver loop: a message translated and
dispatched, or a render pass invoked by the loop body. -/
inductive Step where
  | dispatch (code : Nat)
  | render
deriving DecidableEq

/-- Result of draining the queue in the visible branch of `App::run`:
whether WM_QUIT was seen (the function returns `Ok(())`), the window
state afterwards, the steps taken, and a panic if dispatch aborted. -/
structure IterResult where
  quit : Bool
  window : Window
  steps : List Step
  panic : Option Panic
deriving DecidableEq

/-- The `while PeekMessageW(..) { .. }` drain loop in the visible branch
of `App::run`: remove queued messages one by one, returning success at
WM_QUIT, otherwise translating and dispatching each. -/
def drainMessages (w : Window) : List MsgInput → IterResult
  | [] => { quit := false, window := w, steps := [], panic := none }
  | m :: rest =>
    if m.message = WM_QUIT then
      { quit := true, window := w, steps := [], panic := none }
    else
      match w.user_message_handler m with
      | .error p => { quit := false, window := w, steps := [], panic := some p }
      | .ok (w', _) =>
        let r := drainMessages w' rest
        { r with steps := Step.dispatch m.message :: r.steps }

/-- One iteration of the outer loop of `App::run` when
`self.window.visible` is true: drain the queue; the subsequent
`self.render()?` call is commented out in the source, so no render step
follows the drain. -/
def visibleIteration (w : Window) (queue : List MsgInput) : IterResult :=
  drainMessages w queue

/-- How a modelled run of `App::run` ends on a finite message stream:
`ok` is `return Ok(())` on WM_QUIT; `outOfInput` means the stream was
exhausted with the loop still running (blocked in `GetMessageW`, or
spinning in the visible branch); `panicked` is an aborted dispatch. -/
inductive RunOutcome where
  | ok
  | outOfInput
  | panicked (p : Panic)
deriving DecidableEq

/-- The outer `loop` of `App::run` over the finite message stream.  When
the window is visible the whole remaining stream is the queue the drain
loop consumes (visibility never reverts, and with the render call
commented out an empty queue leaves the loop spinning); when it is not
visible, `GetMessageW` takes one message, WM_QUIT returns success, and
anything else is dispatched before looping. -/
def appRun (w : Window) : List MsgInput → RunOutcome × List Step
  | [] => (RunOutcome.outOfInput, [])
  | m :: rest =>
    if w.visible then
      let r := visibleIteration w (m :: rest)
      match r.panic with
      | some p => (RunOutcome.panicked p, r.steps)
      | none =>
        if r.quit then (RunOutcome.ok, r.steps)
        else (RunOutcome.outOfInput, r.steps)
    else
      if m.message = WM_QUIT then (RunOutcome.ok, [])
      else
        match w.user_message_handler m with
        | .error p => (RunOutcome.panicked p, [])
        | .ok (w', _) =>
          let r := appRun w' rest
          (r.1, Step.dispatch m.message :: r.2)

/-! Helper constructions and per-message-code rewrite lemmas for the
handler. -/

/-- Build a message input whose client-rect and render-result
environment fields are irrelevant defaults. -/
def mkMsg (code wp lp : Nat) : MsgInput :=
  { message := code, wparam := wp, lparam := lp,
    rcLeft := 0, rcTop := 0, rcRight := 0, rcBottom := 0,
    renderResult := RenderResult.ok }

theorem ok_out {X w' : Window} {trX tr : List ExtCall}
    (h : (Except.ok (X, trX) : Except Panic (Window × List ExtCall)) = .ok (w', tr)) :
    X = w' := by
  injection h with h1
  exact congrArg Prod.fst h1

theorem ok_out' {X w' : Window} (h : (Except.ok X : Except Panic Window) = .ok w') :
    X = w' := by
  injection h

theorem handler_activate (w : Window) (m : MsgInput) (hm : m.message = WM_ACTIVATE) :
    w.user_message_handler m = .ok ({ w with visible := true }, []) := by
  unfold Window.user_message_handler
  rw [hm]
  rfl

theorem handler_keydown (w : Window) (m : MsgInput)
    (hm : m.message = WM_KEYDOWN ∨ m.message = WM_SYSKEYDOWN) :
    w.user_message_handler m =
      if m.lparam &&& 0x40000000 == 0 || w.kbd.auto_repeat_is_enabled then
        match u8_try_from m.wparam with
        | some k => .ok ({ w with kbd := w.kbd.on_key_pressed k }, [])
        | none => .error Panic.keycodeConversion
      else
        .ok (w, []) := by
  unfold Window.user_message_handler
  rcases hm with hm | hm <;> rw [hm] <;> rfl

theorem handler_keyup (w : Window) (m : MsgInput)
    (hm : m.message = WM_KEYUP ∨ m.message = WM_SYSKEYUP) :
    w.user_message_handler m =
      match u8_try_from m.wparam with
      | some k => .ok ({ w with kbd := w.kbd.on_key_released k }, [])
      | none => .error Panic.keycodeConversion := by
  unfold Window.user_message_handler
  rcases hm with hm | hm <;> rw [hm] <;> rfl

theorem handler_char (w : Window) (m : MsgInput) (hm : m.message = WM_CHAR) :
    w.user_message_handler m =
      match u8_try_from m.wparam with
      | some c => .ok ({ w with kbd := w.kbd.on_char c }, [])
      | none => .error Panic.charConversion := by
  unfold Window.user_message_handler
  rw [hm]
  rfl

theorem handler_killfocus (w : Window) (m : MsgInput) (hm : m.message = WM_KILLFOCUS) :
    w.user_message_handler m = .ok ({ w with kbd := w.kbd.clear_state }, []) := by
  unfold Window.user_message_handler
  rw [hm]
  rfl

theorem handler_mousemove (w : Window) (m : MsgInput) (hm : m.message = WM_MOUSEMOVE) :
    w.user_message_handler m =
      if 0 ≤ (mouseX m.lparam : Int) ∧ 0 ≤ (mouseY m.lparam : Int) ∧
          (mouseX m.lparam : Int) < w.width ∧ (mouseY m.lparam : Int) < w.height then
        if ¬ w.mouse.is_in_window then
          .ok ({ w with
                  mouse := (w.mouse.on_mouse_move (mouseX m.lparam) (mouseY m.lparam)).on_mouse_enter,
                  captured := true }, [])
        else
          .ok ({ w with
                  mouse := w.mouse.on_mouse_move (mouseX m.lparam) (mouseY m.lparam) }, [])
      else
        if w.mouse.left_is_pressed || w.mouse.right_is_pressed then
          .ok ({ w with
                  mouse := w.mouse.on_mouse_move (mouseX m.lparam) (mouseY m.lparam) }, [])
        else
          .ok ({ w with mouse := w.mouse.on_mouse_leave, captured := false }, []) := by
  unfold Window.user_message_handler
  rw [hm]
  rfl

theorem handler_lbuttondown (w : Window) (m : MsgInput) (hm : m.message = WM_LBUTTONDOWN) :
    w.user_message_handler m = .ok ({ w with mouse := w.mouse.on_left_pressed }, []) := by
  unfold Window.user_message_handler
  rw [hm]
  rfl

theorem handler_rbuttondown (w : Window) (m : MsgInput) (hm : m.message = WM_RBUTTONDOWN) :
    w.user_message_handler m = .ok ({ w with mouse := w.mouse.on_right_pressed }, []) := by
  unfold Window.user_message_handler
  rw [hm]
  rfl

theorem handler_lbuttonup (w : Window) (m : MsgInput) (hm : m.message = WM_LBUTTONUP) :
    w.user_message_handler m = .ok ({ w with mouse := w.mouse.on_left_released }, []) := by
  unfold Window.user_message_handler
  rw [hm]
  rfl

theorem handler_rbuttonup (w : Window) (m : MsgInput) (hm : m.message = WM_RBUTTONUP) :
    w.user_message_handler m = .ok ({ w with mouse := w.mouse.on_right_released }, []) := by
  unfold Window.user_message_handler
  rw [hm]
  rfl

theorem handler_wheel (w : Window) (m : MsgInput) (hm : m.message = WM_MOUSEHWHEEL) :
    w.user_message_handler m =
      .ok ({ w with
              mouse := w.mouse.on_wheel_delta (mouseX m.lparam) (mouseY m.lparam) m.wparam },
           []) := by
  unfold Window.user_message_handler
  rw [hm]
  rfl

theorem handler_size (w : Window) (m : MsgInput) (hm : m.message = WM_SIZE) :
    w.user_message_handler m =
      match w.gfx with
      | some g =>
          .ok ({ w with
                  gfx := some (g.resize (intAsU32 (m.rcRight - m.rcLeft))
                                        (intAsU32 (m.rcBottom - m.rcTop))) }, [])
      | none => .ok (w, []) := by
  unfold Window.user_message_handler
  rw [hm]
  rfl

theorem handler_paint (w : Window) (m : MsgInput) (hm : m.message = WM_PAINT) :
    w.user_message_handler m =
      match w.gfx with
      | none => .error Panic.gfxUnwrap
      | some g =>
          match m.renderResult with
          | RenderResult.ok => .ok (w, [ExtCall.renderCall])
          | RenderResult.lost =>
              .ok ({ w with
                      gfx := some (g.resize (intAsU32 w.width) (intAsU32 w.height)) },
                   [ExtCall.renderCall])
          | RenderResult.outOfMemory =>
              .ok ({ w with quitPosted := true }, [ExtCall.renderCall])
          | RenderResult.outdated => .ok (w, [ExtCall.renderCall])
          | RenderResult.timeout => .ok (w, [ExtCall.renderCall]) := by
  unfold Window.user_message_handler
  rw [hm]
  rfl

theorem handler_destroy (w : Window) (m : MsgInput) (hm : m.message = WM_DESTROY) :
    w.user_message_handler m = .ok ({ w with quitPosted := true }, []) := by
  unfold Window.user_message_handler
  rw [hm]
  rfl

theorem handler_default (w : Window) (m : MsgInput)
    (h1 : ¬ m.message = WM_ACTIVATE)
    (h2 : ¬ (m.message = WM_KEYDOWN ∨ m.message = WM_SYSKEYDOWN))
    (h3 : ¬ (m.message = WM_KEYUP ∨ m.message = WM_SYSKEYUP))
    (h4 : ¬ m.message = WM_CHAR)
    (h5 : ¬ m.message = WM_KILLFOCUS)
    (h6 : ¬ m.message = WM_MOUSEMOVE)
    (h7 : ¬ m.message = WM_LBUTTONDOWN)
    (h8 : ¬ m.message = WM_RBUTTONDOWN)
    (h9 : ¬ m.message = WM_LBUTTONUP)
    (h10 : ¬ m.message = WM_RBUTTONUP)
    (h11 : ¬ m.message = WM_MOUSEHWHEEL)
    (h12 : ¬ m.message = WM_SIZE)
    (h13 : ¬ m.message = WM_PAINT)
    (h14 : ¬ m.message = WM_DESTROY) :
    w.user_message_handler m = .ok (w, [ExtCall.defWindowProc]) := by
  unfold Window.user_message_handler
  rw [if_neg h1, if_neg h2, if_neg h3, if_neg h4, if_neg h5, if_neg h6, if_neg h7,
      if_neg h8, if_neg h9, if_neg h10, if_neg h11, if_neg h12, if_neg h13, if_neg h14]

theorem handler_ok_visible {w : Window} {m : MsgInput} {w' : Window} {tr : List ExtCall}
    (h : w.user_message_handler m = .ok (w', tr)) :
    w'.visible = true ∨ w'.visible = w.visible := by
  by_cases h1 : m.message = WM_ACTIVATE
  · rw [handler_activate w m h1] at h
    rw [← ok_out h]
    exact Or.inl rfl
  by_cases h2 : m.message = WM_KEYDOWN ∨ m.message = WM_SYSKEYDOWN
  · rw [handler_keydown w m h2] at h
    split at h
    · split at h
      · rw [← ok_out h]; exact Or.inr rfl
      · exact Except.noConfusion h
    · rw [← ok_out h]; exact Or.inr rfl
  by_cases h3 : m.message = WM_KEYUP ∨ m.message = WM_SYSKEYUP
  · rw [handler_keyup w m h3] at h
    split at h
    · rw [← ok_out h]; exact Or.inr rfl
    · exact Except.noConfusion h
  by_cases h4 : m.message = WM_CHAR
  · rw [handler_char w m h4] at h
    split at h
    · rw [← ok_out h]; exact Or.inr rfl
    · exact Except.noConfusion h
  by_cases h5 : m.message = WM_KILLFOCUS
  · rw [handler_killfocus w m h5] at h
    rw [← ok_out h]; exact Or.inr rfl
  by_cases h6 : m.message = WM_MOUSEMOVE
  · rw [handler_mousemove w m h6] at h
    split at h
    · split at h <;> (rw [← ok_out h]; exact Or.inr rfl)
    · split at h <;> (rw [← ok_out h]; exact Or.inr rfl)
  by_cases h7 : m.message = WM_LBUTTONDOWN
  · rw [handler_lbuttondown w m h7] at h
    rw [← ok_out h]; exact Or.inr rfl
  by_cases h8 : m.message = WM_RBUTTONDOWN
  · rw [handler_rbuttondown w m h8] at h
    rw [← ok_out h]; exact Or.inr rfl
  by_cases h9 : m.message = WM_LBUTTONUP
  · rw [handler_lbuttonup w m h9] at h
    rw [← ok_out h]; exact Or.inr rfl
  by_cases h10 : m.message = WM_RBUTTONUP
  · rw [handler_rbuttonup w m h10] at h
    rw [← ok_out h]; exact Or.inr rfl
  by_cases h11 : m.message = WM_MOUSEHWHEEL
  · rw [handler_wheel w m h11] at h
    rw [← ok_out h]; exact Or.inr rfl
  by_cases h12 : m.message = WM_SIZE
  · rw [handler_size w m h12] at h
    split at h <;> (rw [← ok_out h]; exact Or.inr rfl)
  by_cases h13 : m.message = WM_PAINT
  · rw [handler_paint w m h13] at h
    split at h
    · exact Except.noConfusion h
    · split at h <;> (rw [← ok_out h]; exact Or.inr rfl)
  by_cases h14 : m.message = WM_DESTROY
  · rw [handler_destroy w m h14] at h
    rw [← ok_out h]; exact Or.inr rfl
  rw [handler_default w m h1 h2 h3 h4 h5 h6 h7 h8 h9 h10 h11 h12 h13 h14] at h
  rw [← ok_out h]; exact Or.inr rfl

theorem handler_visible_mono {w : Window} {m : MsgInput} {w' : Window} {tr : List ExtCall}
    (h : w.user_message_handler m = .ok (w', tr)) (hv : w.visible = true) :
    w'.visible = true := by
  rcases handler_ok_visible h with h1 | h1
  · exact h1
  · rw [h1, hv]

theorem processSeq_nil (w : Window) : processSeq w [] = .ok w := rfl

theorem processSeq_cons (w : Window) (m : MsgInput) (rest : List MsgInput) :
    processSeq w (m :: rest) =
      match w.user_message_handler m with
      | .error p => .error p
      | .ok (w', _) => processSeq w' rest := rfl

theorem processSeq_visible_mono :
    ∀ (msgs : List MsgInput) (w w' : Window),
      processSeq w msgs = .ok w' → w.visible = true → w'.visible = true := by
  intro msgs
  induction msgs with
  | nil =>
    intro w w' h hv
    rw [processSeq_nil] at h
    rw [← ok_out' h]
    exact hv
  | cons m rest ih =>
    intro w w' h hv
    rw [processSeq_cons] at h
    cases hm : w.user_message_handler m with
    | error p => rw [hm] at h; exact Except.noConfusion h
    | ok pr =>
      obtain ⟨w1, tr⟩ := pr
      rw [hm] at h
      exact ih w1 w' h (handler_visible_mono hm hv)

theorem drainMessages_nil (w : Window) :
    drainMessages w [] = { quit := false, window := w, steps := [], panic := none } := rfl

theorem drainMessages_cons (w : Window) (m : MsgInput) (rest : List MsgInput) :
    drainMessages w (m :: rest) =
      if m.message = WM_QUIT then
        { quit := true, window := w, steps := [], panic := none }
      else
        match w.user_message_handler m with
        | .error p => { quit := false, window := w, steps := [], panic := some p }
        | .ok (w', _) =>
          let r := drainMessages w' rest
          { r with steps := Step.dispatch m.message :: r.steps } := rfl

theorem drain_no_render :
    ∀ (msgs : List MsgInput) (w : Window), Step.render ∉ (drainMessages w msgs).steps := by
  intro msgs
  induction msgs with
  | nil =>
    intro w
    rw [drainMessages_nil]
    simp
  | cons m rest ih =>
    intro w
    rw [drainMessages_cons]
    split_ifs with hq
    · simp
    · cases hm : w.user_message_handler m with
      | error p =>
        simp
      | ok pr =>
        obtain ⟨w1, tr⟩ := pr
        show Step.render ∉ Step.dispatch m.message :: (drainMessages w1 rest).steps
        simp only [List.mem_cons]
        rintro (hc | hc)
        · exact Step.noConfusion hc
        · exact ih w1 hc

theorem drain_quit_exists :
    ∀ (msgs : List MsgInput) (w : Window),
      (drainMessages w msgs).quit = true → ∃ m ∈ msgs, m.message = WM_QUIT := by
  intro msgs
  induction msgs with
  | nil =>
    intro w h
    rw [drainMessages_nil] at h
    exact absurd h (by simp)
  | cons m rest ih =>
    intro w h
    rw [drainMessages_cons] at h
    split_ifs at h with hq
    · exact ⟨m, by simp, hq⟩
    · cases hm : w.user_message_handler m with
      | error p =>
        try rw [hm] at h
        exact absurd h (by simp)
      | ok pr =>
        obtain ⟨w1, tr⟩ := pr
        try rw [hm] at h
        have h' : (drainMessages w1 rest).quit = true := h
        obtain ⟨m', hmem, hm'⟩ := ih w1 h'
        exact ⟨m', by simp [hmem], hm'⟩

theorem drain_mem_quit :
    ∀ (msgs : List MsgInput) (w : Window),
      (drainMessages w msgs).panic = none → (∃ m ∈ msgs, m.message = WM_QUIT) →
      (drainMessages w msgs).quit = true := by
  intro msgs
  induction msgs with
  | nil =>
    intro w _ hex
    obtain ⟨m, hmem, _⟩ := hex
    exact absurd hmem (by simp)
  | cons m rest ih =>
    intro w hp hex
    rw [drainMessages_cons] at hp ⊢
    split_ifs at hp ⊢ with hq
    · rfl
    · cases hm : w.user_message_handler m with
      | error p =>
        try rw [hm] at hp
        exact absurd hp (by simp)
      | ok pr =>
        obtain ⟨w1, tr⟩ := pr
        try rw [hm] at hp
        have hp' : (drainMessages w1 rest).panic = none := hp
        show (drainMessages w1 rest).quit = true
        obtain ⟨m', hmem, hm'⟩ := hex
        rcases List.mem_cons.mp hmem with hcase | hcase
        · exact absurd (hcase ▸ hm') hq
        · exact ih w1 hp' ⟨m', hcase, hm'⟩

theorem drain_no_quit_steps :
    ∀ (msgs : List MsgInput) (w : Window),
      (drainMessages w msgs).panic = none → (∀ m ∈ msgs, m.message ≠ WM_QUIT) →
      (drainMessages w msgs).steps = msgs.map (fun m => Step.dispatch m.message) := by
  intro msgs
  induction msgs with
  | nil =>
    intro w _ _
    rw [drainMessages_nil]
    rfl
  | cons m rest ih =>
    intro w hp hnq
    rw [drainMessages_cons] at hp ⊢
    rw [if_neg (hnq m (by simp))] at hp ⊢
    cases hm : w.user_message_handler m with
    | error p =>
      try rw [hm] at hp
      exact absurd hp (by simp)
    | ok pr =>
      obtain ⟨w1, tr⟩ := pr
      try rw [hm] at hp
      have hp' : (drainMessages w1 rest).panic = none := hp
      show Step.dispatch m.message :: (drainMessages w1 rest).steps = _
      rw [List.map_cons]
      rw [ih w1 hp' (fun m' hmem => hnq m' (by simp [hmem]))]

theorem drain_no_quit_not_quit :
    ∀ (msgs : List MsgInput) (w : Window),
      (∀ m ∈ msgs, m.message ≠ WM_QUIT) → (drainMessages w msgs).quit = false := by
  intro msgs
  induction msgs with
  | nil =>
    intro w _
    rw [drainMessages_nil]
  | cons m rest ih =>
    intro w hnq
    rw [drainMessages_cons]
    rw [if_neg (hnq m (by simp))]
    cases hm : w.user_message_handler m with
    | error p => rfl
    | ok pr =>
      obtain ⟨w1, tr⟩ := pr
      show (drainMessages w1 rest).quit = false
      exact ih w1 (fun m' hmem => hnq m' (by simp [hmem]))

theorem drain_append_quit :
    ∀ (pre : List MsgInput) (w w' : Window),
      (∀ m ∈ pre, m.message ≠ WM_QUIT) → processSeq w pre = .ok w' →
      ∀ (q : MsgInput) (rest : List MsgInput), q.message = WM_QUIT →
      drainMessages w (pre ++ q :: rest) =
        { quit := true, window := w',
          steps := pre.map (fun m => Step.dispatch m.message), panic := none } := by
  intro pre
  induction pre with
  | nil =>
    intro w w' _ hps q rest hq
    rw [processSeq_nil] at hps
    rw [← ok_out' hps]
    rw [List.nil_append, drainMessages_cons, if_pos hq]
    rfl
  | cons m pre' ih =>
    intro w w' hnq hps q rest hq
    rw [processSeq_cons] at hps
    cases hm : w.user_message_handler m with
    | error p =>
      try rw [hm] at hps
      exact absurd hps (by simp)
    | ok pr =>
      obtain ⟨w1, tr⟩ := pr
      try rw [hm] at hps
      rw [List.cons_append, drainMessages_cons, if_neg (hnq m (by simp)), hm]
      show ({ quit := (drainMessages w1 (pre' ++ q :: rest)).quit,
              window := (drainMessages w1 (pre' ++ q :: rest)).window,
              steps := Step.dispatch m.message :: (drainMessages w1 (pre' ++ q :: rest)).steps,
              panic := (drainMessages w1 (pre' ++ q :: rest)).panic } : IterResult) = _
      rw [ih w1 w' (fun m' hmem => hnq m' (by simp [hmem])) hps q rest hq]
      rfl

theorem appRun_nil (w : Window) : appRun w [] = (RunOutcome.outOfInput, []) := rfl

theorem appRun_cons (w : Window) (m : MsgInput) (rest : List MsgInput) :
    appRun w (m :: rest) =
      if w.visible then
        let r := visibleIteration w (m :: rest)
        match r.panic with
        | some p => (RunOutcome.panicked p, r.steps)
        | none =>
          if r.quit then (RunOutcome.ok, r.steps)
          else (RunOutcome.outOfInput, r.steps)
      else
        if m.message = WM_QUIT then (RunOutcome.ok, [])
        else
          match w.user_message_handler m with
          | .error p => (RunOutcome.panicked p, [])
          | .ok (w', _) =>
            let r := appRun w' rest
            (r.1, Step.dispatch m.message :: r.2) := rfl

theorem appRun_quit :
    ∀ (pre : List MsgInput) (w w' : Window),
      (∀ m ∈ pre, m.message ≠ WM_QUIT) → processSeq w pre = .ok w' →
      ∀ (q : MsgInput) (rest : List MsgInput), q.message = WM_QUIT →
      appRun w (pre ++ q :: rest) =
        (RunOutcome.ok, pre.map (fun m => Step.dispatch m.message)) := by
  intro pre
  induction pre with
  | nil =>
    intro w w' _ hps q rest hq
    rw [List.nil_append, appRun_cons]
    by_cases hv : w.visible
    · rw [if_pos hv]
      show (match (visibleIteration w (q :: rest)).panic with
        | some p => (RunOutcome.panicked p, (visibleIteration w (q :: rest)).steps)
        | none =>
          if (visibleIteration w (q :: rest)).quit then
            (RunOutcome.ok, (visibleIteration w (q :: rest)).steps)
          else (RunOutcome.outOfInput, (visibleIteration w (q :: rest)).steps)) = _
      have hd : visibleIteration w (q :: rest) =
          { quit := true, window := w, steps := [], panic := none } := by
        unfold visibleIteration
        rw [drainMessages_cons, if_pos hq]
      rw [hd]
      rfl
    · rw [if_neg hv, if_pos hq]
      rfl
  | cons m pre' ih =>
    intro w w' hnq hps q rest hq
    rw [processSeq_cons] at hps
    cases hm : w.user_message_handler m with
    | error p =>
      try rw [hm] at hps
      exact absurd hps (by simp)
    | ok pr =>
      obtain ⟨w1, tr⟩ := pr
      try rw [hm] at hps
      have hps' : processSeq w1 pre' = .ok w' := hps
      rw [List.cons_append, appRun_cons]
      by_cases hv : w.visible
      · rw [if_pos hv]
        have hd := drain_append_quit (m :: pre') w w' hnq
          (by rw [processSeq_cons, hm]; exact hps') q rest hq
        rw [List.cons_append] at hd
        show (match (visibleIteration w (m :: (pre' ++ q :: rest))).panic with
          | some p => (RunOutcome.panicked p, (visibleIteration w (m :: (pre' ++ q :: rest))).steps)
          | none =>
            if (visibleIteration w (m :: (pre' ++ q :: rest))).quit then
              (RunOutcome.ok, (visibleIteration w (m :: (pre' ++ q :: rest))).steps)
            else (RunOutcome.outOfInput, (visibleIteration w (m :: (pre' ++ q :: rest))).steps)) = _
        unfold visibleIteration
        rw [hd]
        rfl
      · rw [if_neg hv, if_neg (hnq m (by simp)), hm]
        show ((appRun w1 (pre' ++ q :: rest)).1,
              Step.dispatch m.message :: (appRun w1 (pre' ++ q :: rest)).2) = _
        rw [ih w1 w' (fun m' hmem => hnq m' (by simp [hmem])) hps' q rest hq]
        rfl

theorem appRun_no_quit :
    ∀ (msgs : List MsgInput) (w : Window),
      (∀ m ∈ msgs, m.message ≠ WM_QUIT) → (appRun w msgs).1 ≠ RunOutcome.ok := by
  intro msgs
  induction msgs with
  | nil =>
    intro w _
    rw [appRun_nil]
    simp
  | cons m rest ih =>
    intro w hnq
    rw [appRun_cons]
    by_cases hv : w.visible
    · rw [if_pos hv]
      show (match (visibleIteration w (m :: rest)).panic with
        | some p => (RunOutcome.panicked p, (visibleIteration w (m :: rest)).steps)
        | none =>
          if (visibleIteration w (m :: rest)).quit then
            (RunOutcome.ok, (visibleIteration w (m :: rest)).steps)
          else (RunOutcome.outOfInput, (visibleIteration w (m :: rest)).steps)).1 ≠ _
      cases hp : (visibleIteration w (m :: rest)).panic with
      | some p => simp
      | none =>
        have hnqq : (visibleIteration w (m :: rest)).quit = false :=
          drain_no_quit_not_quit (m :: rest) w hnq
        rw [hnqq]
        simp
    · rw [if_neg hv, if_neg (hnq m (by simp))]
      cases hm : w.user_message_handler m with
      | error p => simp
      | ok pr =>
        obtain ⟨w1, tr⟩ := pr
        show ((appRun w1 rest).1, Step.dispatch m.message :: (appRun w1 rest).2).1 ≠ _
        exact ih w1 (fun m' hmem => hnq m' (by simp [hmem]))

/-! Concrete states used by witnesses and counterexamples. -/

/-- The window `App::new` constructs: `Window::new(800, 600, "-")`. -/
def appWindow : Window := Window.new 800 600 "-"

/-- A window whose graphics handle has been initialized at the creation
dimensions, as after `Window::initialize`. -/
def gfxWindow : Window :=
  { appWindow with
    visible := true
    gfx := some { config := { width := 800, height := 600 } } }

/-! Claim C1. -/

/-- C1 counterexample: with the window visible and one queued (non-quit)
message, the loop iteration drains the queue without panicking but invokes
zero render passes, not exactly one as the claim states — the
`self.render()?` call after the drain loop is commented out in
`App::run`. -/
theorem c1_counterexample :
    (visibleIteration { appWindow with visible := true } [mkMsg WM_CHAR 65 0]).panic = none ∧
    (visibleIteration { appWindow with visible := true } [mkMsg WM_CHAR 65 0]).steps.count
        Step.render = 0 ∧
    ¬ ((visibleIteration { appWindow with visible := true } [mkMsg WM_CHAR 65 0]).steps.count
        Step.render = 1) := by
  decide

/-- C1 (amended): in every iteration of `App::run` with the visibility
flag true, the loop drains all currently-queued messages non-blockingly —
returning success exactly when a quit message is queued, and dispatching
every queued message when none is — and invokes no render pass after the
queue is empty (the render call is commented out in the source). -/
theorem c1_visible_iteration (w : Window) (queue : List MsgInput) :
    (visibleIteration w queue).steps.count Step.render = 0 ∧
    ((visibleIteration w queue).panic = none →
      ((visibleIteration w queue).quit = true ↔ ∃ m ∈ queue, m.message = WM_QUIT)) ∧
    ((visibleIteration w queue).panic = none → (∀ m ∈ queue, m.message ≠ WM_QUIT) →
      (visibleIteration w queue).steps = queue.map (fun m => Step.dispatch m.message)) := by
  refine ⟨?_, ?_, ?_⟩
  · exact List.count_eq_zero.mpr (drain_no_render queue w)
  · intro hp
    exact ⟨drain_quit_exists queue w, drain_mem_quit queue w hp⟩
  · intro hp hnq
    exact drain_no_quit_steps queue w hp hnq

theorem c1_visible_iteration_witness :
    (visibleIteration { appWindow with visible := true } [mkMsg WM_QUIT 0 0]).steps.count
        Step.render = 0 ∧
    (visibleIteration { appWindow with visible := true } [mkMsg WM_QUIT 0 0]).quit = true :=
  ⟨(c1_visible_iteration { appWindow with visible := true } [mkMsg WM_QUIT 0 0]).1,
   ((c1_visible_iteration { appWindow with visible := true } [mkMsg WM_QUIT 0 0]).2.1
      (by decide)).mpr ⟨mkMsg WM_QUIT 0 0, by decide, by decide⟩⟩

/-! Claim C2. -/

/-- C2: `App::run` returns success within one loop iteration of receiving
a quit message — along any stream whose prefix before the quit dispatches
without panicking, the run returns success having dispatched exactly that
prefix, wherever the quit falls and for every window state (so in both the
blocking-wait branch and the non-blocking drain branch) — and a quit
message is the only way the loop exits with success: on a stream with no
quit message it never returns success. -/
theorem c2_run_quit_termination :
    (∀ (pre : List MsgInput) (w w' : Window),
      (∀ m ∈ pre, m.message ≠ WM_QUIT) → processSeq w pre = .ok w' →
      ∀ (q : MsgInput) (rest : List MsgInput), q.message = WM_QUIT →
      appRun w (pre ++ q :: rest) =
        (RunOutcome.ok, pre.map (fun m => Step.dispatch m.message))) ∧
    (∀ (msgs : List MsgInput) (w : Window),
      (∀ m ∈ msgs, m.message ≠ WM_QUIT) → (appRun w msgs).1 ≠ RunOutcome.ok) :=
  ⟨appRun_quit, appRun_no_quit⟩

theorem c2_run_quit_termination_witness :
    appRun appWindow [mkMsg WM_ACTIVATE 0 0, mkMsg WM_QUIT 0 0]
      = (RunOutcome.ok, [Step.dispatch WM_ACTIVATE]) ∧
    (appRun appWindow [mkMsg WM_ACTIVATE 0 0]).1 ≠ RunOutcome.ok :=
  ⟨c2_run_quit_termination.1 [mkMsg WM_ACTIVATE 0 0] appWindow
      { appWindow with visible := true } (by decide) rfl (mkMsg WM_QUIT 0 0) [] rfl,
   c2_run_quit_termination.2 [mkMsg WM_ACTIVATE 0 0] appWindow (by decide)⟩

/-! Claim C3. -/

/-- Spec-side definition, following the spec's words ("the Surface/Device
Handle, if present, is always sized to match the window's last known
client-area dimensions"): the last known client-area dimensions are those
reported by the most recent client-rect query (WM_SIZE), initially the
creation dimensions. -/
def lastKnownClientDims (initW initH : Int) (msgs : List MsgInput) : Int × Int :=
  msgs.foldl
    (fun d m => if m.message = WM_SIZE then (m.rcRight - m.rcLeft, m.rcBottom - m.rcTop) else d)
    (initW, initH)

/-- The WM_SIZE message of the C3 scenario: the client rectangle now
measures 640 by 480. -/
def c3sizeMsg : MsgInput := { mkMsg WM_SIZE 0 0 with rcRight := 640, rcBottom := 480 }

/-- The WM_PAINT message of the C3 scenario: the render operation reports
a lost surface. -/
def c3paintMsg : MsgInput := { mkMsg WM_PAINT 0 0 with renderResult := RenderResult.lost }

/-- C3 counterexample: after a resize message reporting a 640 by 480
client area, a Paint with a surface-lost result reconfigures the surface
at 800 by 600 — the creation-time `width`/`height` fields, which no
handler updates — while the last known client-area dimensions are
640 by 480.  The claim that the reconfiguration uses the current (last
known) client-area dimensions fails on this input. -/
theorem c3_counterexample :
    lastKnownClientDims 800 600 [c3sizeMsg, c3paintMsg] = (640, 480) ∧
    (processSeq gfxWindow [c3sizeMsg, c3paintMsg]).toOption.map
        (fun w => w.gfx.map (fun g => (g.config.width, g.config.height)))
      = some (some (800, 600)) ∧
    ¬ ((processSeq gfxWindow [c3sizeMsg, c3paintMsg]).toOption.map
        (fun w => w.gfx.map (fun g => (g.config.width, g.config.height)))
      = some (some (640, 480))) := by
  decide

/-- C3 (amended): when handling a Paint message whose render operation
returns a surface-lost error, the handler immediately reconfigures the
surface at the window's stored `width`/`height` fields (cast `as u32`) —
the creation-time client dimensions, which the resize handler never
updates — not at the last known client-area dimensions when those
differ. -/
theorem c3_paint_lost (w : Window) (g : GFX) (m : MsgInput)
    (hg : w.gfx = some g) (hm : m.message = WM_PAINT)
    (hr : m.renderResult = RenderResult.lost) :
    w.user_message_handler m
      = .ok ({ w with gfx := some (g.resize (intAsU32 w.width) (intAsU32 w.height)) },
             [ExtCall.renderCall]) := by
  rw [handler_paint w m hm, hg, hr]

theorem c3_paint_lost_witness :
    gfxWindow.user_message_handler c3paintMsg
      = .ok ({ gfxWindow with
                gfx := some (GFX.resize { config := { width := 800, height := 600 } }
                              (intAsU32 gfxWindow.width) (intAsU32 gfxWindow.height)) },
             [ExtCall.renderCall]) :=
  c3_paint_lost gfxWindow { config := { width := 800, height := 600 } } c3paintMsg rfl rfl rfl

/-! Claim C4. -/

/-- C4 counterexample: on a window without a Surface/Device Handle, the
Paint handler does not complete — `self.gfx.as_mut().unwrap()` panics —
contradicting the claim that it completes without aborting. -/
theorem c4_counterexample :
    appWindow.gfx = none ∧
    appWindow.user_message_handler (mkMsg WM_PAINT 0 0) = .error Panic.gfxUnwrap :=
  ⟨rfl, rfl⟩

/-- C4 (amended): for every Paint message the handler unconditionally
unwraps the Surface/Device Handle: when the handle exists, the render
operation is invoked and the handler completes; when no handle exists,
the handler aborts with a panic on the unwrap instead of completing. -/
theorem c4_paint_unwrap (w : Window) (m : MsgInput) (hm : m.message = WM_PAINT) :
    (w.gfx = none → w.user_message_handler m = .error Panic.gfxUnwrap) ∧
    (∀ g : GFX, w.gfx = some g →
      ∃ w' : Window, w.user_message_handler m = .ok (w', [ExtCall.renderCall])) := by
  rw [handler_paint w m hm]
  constructor
  · intro hg
    rw [hg]
  · intro g hg
    rw [hg]
    cases hr : m.renderResult <;> exact ⟨_, rfl⟩

theorem c4_paint_unwrap_witness :
    appWindow.user_message_handler (mkMsg WM_PAINT 0 0) = .error Panic.gfxUnwrap :=
  (c4_paint_unwrap appWindow (mkMsg WM_PAINT 0 0) rfl).1 rfl

/-! Claim C5. -/

/-- C5: for every key-down or system-key-down message whose key code fits
the Keyboard's eight-bit encoding, the key is registered as pressed
exactly when the auto-repeat transition-state bit (bit 30 of the
message's extra parameter) is clear or the keyboard's auto-repeat flag is
enabled; otherwise the window state is unchanged and no key is
registered. -/
theorem c5_keydown_autorepeat (w : Window) (m : MsgInput)
    (hm : m.message = WM_KEYDOWN ∨ m.message = WM_SYSKEYDOWN)
    (hk : m.wparam < 256) :
    ((m.lparam &&& 0x40000000 = 0 ∨ w.kbd.auto_repeat_is_enabled = true) →
      w.user_message_handler m
          = .ok ({ w with kbd := w.kbd.on_key_pressed m.wparam }, []) ∧
      ({ w with kbd := w.kbd.on_key_pressed m.wparam }).kbd.key_is_pressed m.wparam = true) ∧
    (¬ (m.lparam &&& 0x40000000 = 0 ∨ w.kbd.auto_repeat_is_enabled = true) →
      w.user_message_handler m = .ok (w, [])) := by
  rw [handler_keydown w m hm]
  have hu : u8_try_from m.wparam = some m.wparam := by
    unfold u8_try_from
    rw [if_pos hk]
  constructor
  · intro hc
    have hb : (m.lparam &&& 0x40000000 == 0 || w.kbd.auto_repeat_is_enabled) = true := by
      rcases hc with hc | hc <;> simp [hc]
    rw [if_pos hb, hu]
    refine ⟨rfl, ?_⟩
    simp [Keyboard.key_is_pressed, Keyboard.on_key_pressed, List.contains,
      List.mem_insert_iff]
  · intro hc
    obtain ⟨h1, h2⟩ := not_or.mp hc
    have hb : (m.lparam &&& 0x40000000 == 0 || w.kbd.auto_repeat_is_enabled) = false := by
      simp [h1, h2]
    rw [hb]
    rfl

theorem c5_keydown_autorepeat_witness :
    appWindow.user_message_handler (mkMsg WM_KEYDOWN 65 0)
      = .ok ({ appWindow with kbd := appWindow.kbd.on_key_pressed 65 }, []) ∧
    appWindow.user_message_handler (mkMsg WM_SYSKEYDOWN 65 0x40000000)
      = .ok (appWindow, []) :=
  ⟨((c5_keydown_autorepeat appWindow (mkMsg WM_KEYDOWN 65 0) (Or.inl rfl) (by decide)).1
      (Or.inl (by decide))).1,
   (c5_keydown_autorepeat appWindow (mkMsg WM_SYSKEYDOWN 65 0x40000000) (Or.inr rfl)
      (by decide)).2 (by decide)⟩

/-! Claim C6. -/

/-- C6: for every call to `GFX::resize`, a zero new width or zero new
height leaves the configured surface dimensions unchanged, and positive
new dimensions are stored exactly. -/
theorem c6_resize_dims (g : GFX) (new_width new_height : Nat) :
    ((new_width = 0 ∨ new_height = 0) → g.resize new_width new_height = g) ∧
    (0 < new_width → 0 < new_height →
      (g.resize new_width new_height).config.width = new_width ∧
      (g.resize new_width new_height).config.height = new_height) := by
  constructor
  · intro h
    unfold GFX.resize
    rcases h with h | h <;> simp [h]
  · intro h1 h2
    unfold GFX.resize
    rw [if_pos ⟨h1, h2⟩]
    exact ⟨rfl, rfl⟩

theorem c6_resize_dims_witness :
    (GFX.resize { config := { width := 800, height := 600 } } 0 480
      = { config := { width := 800, height := 600 } }) ∧
    (GFX.resize { config := { width := 800, height := 600 } } 640 480).config.width = 640 ∧
    (GFX.resize { config := { width := 800, height := 600 } } 640 480).config.height = 480 :=
  ⟨(c6_resize_dims { config := { width := 800, height := 600 } } 0 480).1 (Or.inl rfl),
   ((c6_resize_dims { config := { width := 800, height := 600 } } 640 480).2
      (by decide) (by decide)).1,
   ((c6_resize_dims { config := { width := 800, height := 600 } } 640 480).2
      (by decide) (by decide)).2⟩

/-! Claim C7. -/

/-- C7: for every pointer-move message whose decoded position lies
outside the client rectangle: with neither button pressed, the mouse is
marked as having left the window, capture is released, and no move is
recorded (the event queue is unchanged); with a button pressed, the move
is recorded and the in-window mark is left untouched. -/
theorem c7_mousemove_outside (w : Window) (m : MsgInput)
    (hm : m.message = WM_MOUSEMOVE)
    (hout : ¬ (0 ≤ (mouseX m.lparam : Int) ∧ 0 ≤ (mouseY m.lparam : Int) ∧
        (mouseX m.lparam : Int) < w.width ∧ (mouseY m.lparam : Int) < w.height)) :
    (w.mouse.left_is_pressed = false → w.mouse.right_is_pressed = false →
      w.user_message_handler m
          = .ok ({ w with mouse := w.mouse.on_mouse_leave, captured := false }, []) ∧
      (w.mouse.on_mouse_leave).inWindow = false ∧
      (w.mouse.on_mouse_leave).buffer = w.mouse.buffer) ∧
    ((w.mouse.left_is_pressed = true ∨ w.mouse.right_is_pressed = true) →
      w.user_message_handler m
          = .ok ({ w with
                    mouse := w.mouse.on_mouse_move (mouseX m.lparam) (mouseY m.lparam) }, []) ∧
      (w.mouse.on_mouse_move (mouseX m.lparam) (mouseY m.lparam)).inWindow
          = w.mouse.inWindow ∧
      (w.mouse.on_mouse_move (mouseX m.lparam) (mouseY m.lparam)).buffer
          = w.mouse.buffer ++ [MouseEvent.move (mouseX m.lparam) (mouseY m.lparam)]) := by
  rw [handler_mousemove w m hm, if_neg hout]
  constructor
  · intro hl hr
    have hb : (w.mouse.left_is_pressed || w.mouse.right_is_pressed) = false := by
      simp [hl, hr]
    rw [hb]
    exact ⟨rfl, rfl, rfl⟩
  · intro hor
    have hb : (w.mouse.left_is_pressed || w.mouse.right_is_pressed) = true := by
      rcases hor with h | h <;> simp [h]
    rw [hb]
    exact ⟨rfl, rfl, rfl⟩

theorem c7_mousemove_outside_witness :
    appWindow.user_message_handler (mkMsg WM_MOUSEMOVE 0 656260)
      = .ok ({ appWindow with mouse := appWindow.mouse.on_mouse_leave, captured := false },
             []) :=
  ((c7_mousemove_outside appWindow (mkMsg WM_MOUSEMOVE 0 656260) rfl (by decide)).1
    rfl rfl).1

/-! Claim C8. -/

/-- The C8 scenario message sequence: the pointer enters at (10, 10)
(lparam packs y = 10 in the high word, x = 10 in the low word:
0x000A000A = 655370), the left button goes down, and the pointer moves to
x = -5, y = 10 — which the system packs as the 16-bit two's-complement
field 0xFFFB, so lparam = 0x000AFFFB = 720891. -/
def c8moves : List MsgInput :=
  [mkMsg WM_MOUSEMOVE 0 655370, mkMsg WM_LBUTTONDOWN 1 0, mkMsg WM_MOUSEMOVE 1 720891]

/-- C8 counterexample: in the scenario, the drag move outside the client
area is recorded, but the recorded coordinates are (65531, 10), not
(-5, 10): the handler masks the low 16 bits of lparam without sign
extension, so x = -5 arrives as 0xFFFB = 65531. -/
theorem c8_counterexample :
    (processSeq appWindow c8moves).toOption.map (fun w => w.mouse.buffer)
      = some [MouseEvent.move 10 10, MouseEvent.leftDown, MouseEvent.move 65531 10] ∧
    MouseEvent.move 65531 10 ≠ MouseEvent.move (-5) 10 := by
  decide

/-- C8 (amended): in the scenario where the pointer enters the window at
(10, 10) and a pointer-move to (-5, 10) arrives while the left button is
held, the move is recorded, and the recorded coordinates are exactly
(65531, 10): the decoder takes the low 16 bits of the packed position
parameter unsigned, without sign extension. -/
theorem c8_drag_outside_recorded :
    (processSeq appWindow c8moves).toOption.map
        (fun w => (w.mouse.buffer, w.mouse.x, w.mouse.y))
      = some ([MouseEvent.move 10 10, MouseEvent.leftDown, MouseEvent.move 65531 10],
              65531, 10) := by
  decide

/-! Claim C9. -/

/-- C9: the visibility flag is monotone: an activation message sets it to
true, and no message accepted by the handler resets it — along every
message sequence the handler processes without panicking, once the flag
is true it stays true. -/
theorem c9_visible_monotone :
    (∀ (w : Window) (m : MsgInput), m.message = WM_ACTIVATE →
      w.user_message_handler m = .ok ({ w with visible := true }, [])) ∧
    (∀ (msgs : List MsgInput) (w w' : Window),
      processSeq w msgs = .ok w' → w.visible = true → w'.visible = true) :=
  ⟨handler_activate, processSeq_visible_mono⟩

theorem c9_visible_monotone_witness :
    appWindow.user_message_handler (mkMsg WM_ACTIVATE 0 0)
      = .ok ({ appWindow with visible := true }, []) ∧
    ({ appWindow with
        visible := true
        kbd := appWindow.kbd.on_char 65 } : Window).visible = true :=
  ⟨c9_visible_monotone.1 appWindow (mkMsg WM_ACTIVATE 0 0) rfl,
   c9_visible_monotone.2 [mkMsg WM_CHAR 65 0] { appWindow with visible := true } _ rfl rfl⟩

/-! Claim C10. -/

/-- C10: handling a focus-lost message clears the keyboard state — the
pressed-set and the character queue become empty — and leaves the mouse
state (button flags, in-window flag and queued events) entirely
unchanged, regardless of the prior state. -/
theorem c10_killfocus_clears_kbd (w : Window) (m : MsgInput)
    (hm : m.message = WM_KILLFOCUS) :
    w.user_message_handler m = .ok ({ w with kbd := w.kbd.clear_state }, []) ∧
    (w.kbd.clear_state).keystates = [] ∧
    (w.kbd.clear_state).charbuffer = [] ∧
    ({ w with kbd := w.kbd.clear_state }).mouse = w.mouse :=
  ⟨handler_killfocus w m hm, rfl, rfl, rfl⟩

theorem c10_killfocus_clears_kbd_witness :
    gfxWindow.user_message_handler (mkMsg WM_KILLFOCUS 0 0)
      = .ok ({ gfxWindow with kbd := gfxWindow.kbd.clear_state }, []) :=
  (c10_killfocus_clears_kbd gfxWindow (mkMsg WM_KILLFOCUS 0 0) rfl).1

end LW
